import Mathlib

/-!
Shallow embedding of the DBusTransport base object (src/dbus/dbus-transport.c,
src/dbus/dbus-transport-protected.h) and proofs of the spec claims about it.

The transport state is the `DBusTransport` structure from
dbus-transport-protected.h.  Each public operation of dbus-transport.c is a
function from the transport state to the new state together with a trace of
observable events: reference-count changes, vtable dispatches into subclass
code, error reports to the connection.  Every trace event is paired with the
transport state at the moment the event fires, so ordering claims ("the
subclass disconnect operation observes pre-disconnect state") are statable.
Subclass vtable bodies, the connection, the watch system and the auth
conversation are external collaborators (not in the sources); they appear as
opaque events, opaque parameters, or oracles.
-/

/-- Variant of the AuthConversation chosen by the server/client role flag at
construction: `_dbus_auth_server_new` vs `_dbus_auth_client_new`. -/
inductive AuthVariant where
  | server
  | client
deriving DecidableEq, Repr

/-- Modelled from the spec: the phases reported by the AuthConversation
(`_dbus_auth_do_work`, dbus-auth.h is not among the sources); only the
distinguished authenticated phase matters to the transport. -/
inductive DBusAuthState where
  | waitingForInput
  | waitingForMemory
  | haveBytesToSend
  | needDisconnect
  | authenticated
deriving DecidableEq, Repr

/-- Modelled from the spec: result codes reported to the Connection
(dbus-errors.h is not among the sources); the transport reports only
`DBUS_RESULT_DISCONNECTED`. -/
inductive DBusResultCode where
  | success
  | failed
  | noMemory
  | disconnected
deriving DecidableEq, Repr

/-- The DBusTransport base-class state, from dbus-transport-protected.h.
`refcount` is the C `int` reference count.  `vtable` is the identity of the
immutable subclass vtable (a token; the six operations themselves are opaque
subclass code).  `connection` records whether the connection back-pointer is
non-NULL.  `loader` records ownership of a message loader, `auth` ownership of
an auth conversation of the role-chosen variant, and `authCalls` how often the
conversation has been asked to advance (`_dbus_auth_do_work` mutates it).
The three bitfield flags are the C bitfields. -/
structure DBusTransport where
  refcount : Int
  vtable : Nat
  connection : Bool
  loader : Bool
  auth : Option AuthVariant
  authCalls : Nat
  disconnected : Bool
  authenticated : Bool
  messages_need_sending : Bool
deriving DecidableEq, Repr

/-- Observable events of a transport operation: reference-count traffic on the
transport, connection and watch, dispatches through the six-entry vtable into
subclass code, error reports to the connection, and warnings. -/
inductive Event where
  | refTransport
  | unrefTransport
  | refConnection
  | unrefConnection
  | refWatch
  | unrefWatch
  | vFinalize
  | vDisconnect
  | vHandleWatch (fd : Int) (condition : Nat)
  | vConnectionSet
  | vMessagesPending (queue_length : Int)
  | vDoIteration (flags : Nat) (timeout_milliseconds : Int)
  | connectionError (code : DBusResultCode)
  | warn
deriving DecidableEq, Repr

/-- A trace: each event paired with the transport state at the moment the
event fires. -/
abbrev Trace := List (Event × DBusTransport)

/-- `_dbus_transport_ref`: increments the reference count. -/
def _dbus_transport_ref (t : DBusTransport) : DBusTransport × Trace :=
  let t1 := { t with refcount := t.refcount + 1 }
  (t1, [(Event.refTransport, t1)])

/-- `_dbus_transport_unref`: decrements the reference count and, when it
reaches zero, dispatches the subclass finalize vtable operation.  The C code
asserts `refcount > 0` on entry; validity of call sequences is a hypothesis of
the theorems. -/
def _dbus_transport_unref (t : DBusTransport) : DBusTransport × Trace :=
  let t1 := { t with refcount := t.refcount - 1 }
  (t1, (Event.unrefTransport, t1) ::
        (if t1.refcount = 0 then [(Event.vFinalize, t1)] else []))

/-- The `DBUS_TRANSPORT_HOLD_REF` macro: ref the transport, then, if a
connection is attached, ref the connection. -/
def DBUS_TRANSPORT_HOLD_REF (t : DBusTransport) : DBusTransport × Trace :=
  let r := _dbus_transport_ref t
  (r.1, r.2 ++ (if r.1.connection then [(Event.refConnection, r.1)] else []))

/-- The `DBUS_TRANSPORT_RELEASE_REF` macro: if a connection is attached, unref
the connection, then unref the transport. -/
def DBUS_TRANSPORT_RELEASE_REF (t : DBusTransport) : DBusTransport × Trace :=
  let pre : Trace := if t.connection then [(Event.unrefConnection, t)] else []
  let u := _dbus_transport_unref t
  (u.1, pre ++ u.2)

/-- Allocation/release actions performed by `_dbus_transport_init_base`:
`_dbus_message_loader_new`, `_dbus_message_loader_unref` (on the auth-failure
path), and `_dbus_auth_server_new`/`_dbus_auth_client_new`. -/
inductive InitEvent where
  | allocLoader
  | freeLoader
  | allocAuth (v : AuthVariant)
deriving DecidableEq, Repr

/-- `_dbus_transport_init_base`: allocate a loader, then an auth conversation
of the role-chosen variant; on failure release what was allocated and return
FALSE without touching the transport; on success set the base fields.
`loader_ok` and `auth_ok` stand for success of the two external allocations.
The returned list records allocation/release actions of the call. -/
def _dbus_transport_init_base (t : DBusTransport) (vtable : Nat) (server : Bool)
    (loader_ok auth_ok : Bool) : Bool × DBusTransport × List InitEvent :=
  if loader_ok = false then (false, t, [])
  else
    let v := if server then AuthVariant.server else AuthVariant.client
    if auth_ok = false then
      (false, t, [InitEvent.allocLoader, InitEvent.freeLoader])
    else
      (true,
       { t with refcount := 1, vtable := vtable, loader := true, auth := some v,
                authCalls := 0, authenticated := false,
                messages_need_sending := false, disconnected := false },
       [InitEvent.allocLoader, InitEvent.allocAuth v])

/-- `_dbus_transport_disconnect`: a no-op when already disconnected; otherwise
hold the reentrancy guard, dispatch the subclass disconnect operation, set the
disconnected flag, release the guard. -/
def _dbus_transport_disconnect (t : DBusTransport) : DBusTransport × Trace :=
  if t.disconnected then (t, [])
  else
    let h := DBUS_TRANSPORT_HOLD_REF t
    let t2 := { h.1 with disconnected := true }
    let r := DBUS_TRANSPORT_RELEASE_REF t2
    (r.1, h.2 ++ [(Event.vDisconnect, h.1)] ++ r.2)

/-- `_dbus_transport_get_is_connected`: true while not disconnected. -/
def _dbus_transport_get_is_connected (t : DBusTransport) : Bool :=
  !t.disconnected

/-- `_dbus_transport_get_is_authenticated`: returns the cached flag when
already true; otherwise asks the auth conversation to advance
(`_dbus_auth_do_work`) and caches whether the reported phase equals
`DBUS_AUTH_STATE_AUTHENTICATED`.  The conversation is the oracle `work`,
giving the phase reported by its n-th advance; each consult advances
`authCalls`. -/
def _dbus_transport_get_is_authenticated (work : Nat → DBusAuthState)
    (t : DBusTransport) : Bool × DBusTransport :=
  if t.authenticated then (true, t)
  else
    let b := decide (work t.authCalls = DBusAuthState.authenticated)
    (b, { t with authenticated := b, authCalls := t.authCalls + 1 })

/-- Modelled from the spec: a watch handle; the transport consults only its
file descriptor (`dbus_watch_get_fd`; dbus-watch.h is not among the
sources). -/
structure DBusWatch where
  fd : Int
deriving DecidableEq, Repr

/-- `_dbus_transport_handle_watch`: report disconnection, drop invalidated
watches, sanitize the condition (`_dbus_watch_sanitize_condition` is external
collaborator code, the opaque parameter `sanitize`), then dispatch under the
reentrancy guard while also holding a reference on the watch. -/
def _dbus_transport_handle_watch (sanitize : Nat → Nat) (t : DBusTransport)
    (watch : DBusWatch) (condition : Nat) : DBusTransport × Trace :=
  if t.disconnected then
    (t, [(Event.connectionError DBusResultCode.disconnected, t)])
  else if watch.fd < 0 then
    (t, [(Event.warn, t)])
  else
    let condition2 := sanitize condition
    let h := DBUS_TRANSPORT_HOLD_REF t
    let r := DBUS_TRANSPORT_RELEASE_REF h.1
    (r.1, h.2 ++ [(Event.refWatch, h.1),
                  (Event.vHandleWatch watch.fd condition2, h.1),
                  (Event.unrefWatch, h.1)] ++ r.2)

/-- `_dbus_transport_set_connection`: asserts no prior binding, installs the
connection back-pointer, then dispatches the subclass connection_set operation
under the reentrancy guard. -/
def _dbus_transport_set_connection (t : DBusTransport) : DBusTransport × Trace :=
  let t0 := { t with connection := true }
  let h := DBUS_TRANSPORT_HOLD_REF t0
  let r := DBUS_TRANSPORT_RELEASE_REF h.1
  (r.1, h.2 ++ [(Event.vConnectionSet, h.1)] ++ r.2)

/-- `_dbus_transport_messages_pending`: report disconnection, otherwise set
`messages_need_sending = (queue_length > 0)` and dispatch the subclass
messages_pending operation under the reentrancy guard. -/
def _dbus_transport_messages_pending (t : DBusTransport)
    (queue_length : Int) : DBusTransport × Trace :=
  if t.disconnected then
    (t, [(Event.connectionError DBusResultCode.disconnected, t)])
  else
    let t0 := { t with messages_need_sending := decide (queue_length > 0) }
    let h := DBUS_TRANSPORT_HOLD_REF t0
    let r := DBUS_TRANSPORT_RELEASE_REF h.1
    (r.1, h.2 ++ [(Event.vMessagesPending queue_length, h.1)] ++ r.2)

/-- Modelled from the spec: the read-direction iteration flag bit
(dbus-connection-internal.h is not among the sources); only its role as an
independent bit matters. -/
def DBUS_ITERATION_DO_READING : Nat := 1

/-- Modelled from the spec: the write-direction iteration flag bit. -/
def DBUS_ITERATION_DO_WRITING : Nat := 2

/-- `_dbus_transport_do_iteration`: nothing to do when neither direction flag
is set; report disconnection; otherwise dispatch the subclass do_iteration
operation under the reentrancy guard. -/
def _dbus_transport_do_iteration (t : DBusTransport) (flags : Nat)
    (timeout_milliseconds : Int) : DBusTransport × Trace :=
  if flags &&& (DBUS_ITERATION_DO_WRITING ||| DBUS_ITERATION_DO_READING) = 0 then
    (t, [])
  else if t.disconnected then
    (t, [(Event.connectionError DBusResultCode.disconnected, t)])
  else
    let h := DBUS_TRANSPORT_HOLD_REF t
    let r := DBUS_TRANSPORT_RELEASE_REF h.1
    (r.1, h.2 ++ [(Event.vDoIteration flags timeout_milliseconds, h.1)] ++ r.2)

/-- A call in a reference-management sequence: `_dbus_transport_ref` or
`_dbus_transport_unref`. -/
inductive TOp where
  | ref
  | unref
deriving DecidableEq, Repr

/-- Apply one reference-management call. -/
def applyTOp (t : DBusTransport) : TOp → DBusTransport × Trace
  | TOp.ref => _dbus_transport_ref t
  | TOp.unref => _dbus_transport_unref t

/-- Run a sequence of ref/unref calls, accumulating the trace. -/
def runTOps (t : DBusTransport) : List TOp → DBusTransport × Trace
  | [] => (t, [])
  | op :: rest =>
    ((runTOps (applyTOp t op).1 rest).1,
     (applyTOp t op).2 ++ (runTOps (applyTOp t op).1 rest).2)

/-- Number of occurrences of an event in a trace, ignoring the state
snapshots. -/
def countEvent (ev : Event) (es : Trace) : Nat :=
  es.countP (fun e => e.1 = ev)

/-- Number of `ref` calls in a sequence. -/
def refCalls (ops : List TOp) : Nat :=
  ops.countP (fun op => op = TOp.ref)

/-- Number of `unref` calls in a sequence. -/
def unrefCalls (ops : List TOp) : Nat :=
  ops.countP (fun op => op = TOp.unref)

/-- The reference count after one ref/unref call starting from `r`. -/
def stepRC (r : Int) : TOp → Int
  | TOp.ref => r + 1
  | TOp.unref => r - 1

/-- A ref/unref call sequence is valid from reference count `r` when every
call happens while the object is still alive (count positive), so the asserts
of `_dbus_transport_unref` hold and no call follows destruction. -/
def validFrom (r : Int) : List TOp → Bool
  | [] => true
  | op :: rest => decide (0 < r) && validFrom (stepRC r op) rest

/-- The events of a transport operation's trace, in order, without the state
snapshots. -/
def traceEvents (x : DBusTransport × Trace) : List Event :=
  x.2.map Prod.fst

/-- Events of acquiring the reentrancy guard (`DBUS_TRANSPORT_HOLD_REF`) on a
transport whose connection field is `c`. -/
def guardAcquire (c : Bool) : List Event :=
  Event.refTransport :: (if c then [Event.refConnection] else [])

/-- Events of releasing the reentrancy guard (`DBUS_TRANSPORT_RELEASE_REF`) on
a still-referenced transport whose connection field is `c`: the reverse order
of acquisition. -/
def guardRelease (c : Bool) : List Event :=
  (if c then [Event.unrefConnection] else []) ++ [Event.unrefTransport]

/-- A concrete freshly initialized client transport (no connection bound),
as `_dbus_transport_init_base` leaves it. -/
def sampleTransport : DBusTransport :=
  { refcount := 1, vtable := 0, connection := false, loader := true,
    auth := some AuthVariant.client, authCalls := 0, disconnected := false,
    authenticated := false, messages_need_sending := false }

/-- `sampleTransport` after binding a connection. -/
def sampleConnected : DBusTransport :=
  { sampleTransport with connection := true }

/-- `sampleConnected` after `_dbus_transport_disconnect`. -/
def sampleDisconnected : DBusTransport :=
  { sampleConnected with disconnected := true }

/-- `N` successive `_dbus_transport_disconnect` calls, accumulating the
trace. -/
def iterDisconnect (t : DBusTransport) : Nat → DBusTransport × Trace
  | 0 => (t, [])
  | n + 1 =>
    ((_dbus_transport_disconnect (iterDisconnect t n).1).1,
     (iterDisconnect t n).2 ++ (_dbus_transport_disconnect (iterDisconnect t n).1).2)

lemma countEvent_append (ev : Event) (a b : Trace) :
    countEvent ev (a ++ b) = countEvent ev a + countEvent ev b := by
  simp [countEvent, List.countP_append]

lemma validFrom_pos {r : Int} {op : TOp} {rest : List TOp}
    (h : validFrom r (op :: rest) = true) : 0 < r := by
  simp [validFrom] at h
  exact h.1

lemma validFrom_cons {r : Int} {op : TOp} {rest : List TOp}
    (h : validFrom r (op :: rest) = true) :
    validFrom (stepRC r op) rest = true := by
  simp [validFrom] at h
  exact h.2

lemma validFrom_nil {r : Int} {ops : List TOp} (hr : r ≤ 0)
    (h : validFrom r ops = true) : ops = [] := by
  cases ops with
  | nil => rfl
  | cons op rest => exact absurd (validFrom_pos h) (by omega)

lemma validFrom_append {r : Int} {p q : List TOp}
    (h : validFrom r (p ++ q) = true) : validFrom r p = true := by
  induction p generalizing r with
  | nil => simp [validFrom]
  | cons op rest ih =>
    simp [validFrom] at h ⊢
    exact ⟨h.1, ih h.2⟩

lemma countFinalize_runTOps (ops : List TOp) :
    ∀ t : DBusTransport, 0 < t.refcount → validFrom t.refcount ops = true →
    countEvent Event.vFinalize (runTOps t ops).2 =
      if t.refcount + (refCalls ops : Int) - (unrefCalls ops : Int) = 0
      then 1 else 0 := by
  induction ops with
  | nil =>
    intro t ht _
    rw [if_neg (by simp [refCalls, unrefCalls]; omega)]
    simp [runTOps, countEvent]
  | cons op rest ih =>
    intro t ht hv
    have hv' := validFrom_cons hv
    cases op with
    | ref =>
      have h2 := ih { t with refcount := t.refcount + 1 } (by simp; omega)
        (by simpa using hv')
      simp only [runTOps, applyTOp, _dbus_transport_ref, countEvent_append]
      have ha : countEvent Event.vFinalize
          [(Event.refTransport, { t with refcount := t.refcount + 1 })] = 0 := by
        simp [countEvent]
      simp only at h2
      rw [ha, h2]
      have hiff : (t.refcount + 1 + (refCalls rest : Int) - (unrefCalls rest : Int) = 0) ↔
          (t.refcount + (refCalls (TOp.ref :: rest) : Int) -
            (unrefCalls (TOp.ref :: rest) : Int) = 0) := by
        simp [refCalls, unrefCalls, List.countP_cons]
        omega
      rw [if_congr hiff rfl rfl]
      omega
    | unref =>
      have hv'' : validFrom (t.refcount - 1) rest = true := by simpa using hv'
      have hcnt : (refCalls (TOp.unref :: rest) : Int) = refCalls rest ∧
          (unrefCalls (TOp.unref :: rest) : Int) = unrefCalls rest + 1 := by
        constructor <;> simp [refCalls, unrefCalls, List.countP_cons]
      by_cases h0 : t.refcount - 1 = 0
      · have hrest : rest = [] := validFrom_nil (by omega) hv''
        subst hrest
        rw [if_pos (by rw [hcnt.1, hcnt.2]; simp [refCalls, unrefCalls]; omega)]
        simp [runTOps, applyTOp, _dbus_transport_unref, countEvent, h0]
      · have h2 := ih { t with refcount := t.refcount - 1 } (by simp; omega)
          (by simpa using hv'')
        simp only [runTOps, applyTOp, _dbus_transport_unref, countEvent_append]
        have ha : countEvent Event.vFinalize
            ((Event.unrefTransport, { t with refcount := t.refcount - 1 }) ::
              (if ({ t with refcount := t.refcount - 1 } : DBusTransport).refcount = 0
               then [(Event.vFinalize, { t with refcount := t.refcount - 1 })]
               else [])) = 0 := by
          simp only [show ({ t with refcount := t.refcount - 1 } :
            DBusTransport).refcount = t.refcount - 1 from rfl]
          rw [if_neg h0]
          simp [countEvent]
        simp only at h2
        rw [ha, h2]
        have hiff : (t.refcount - 1 + (refCalls rest : Int) - (unrefCalls rest : Int) = 0) ↔
            (t.refcount + (refCalls (TOp.unref :: rest) : Int) -
              (unrefCalls (TOp.unref :: rest) : Int) = 0) := by
          rw [hcnt.1, hcnt.2]
          omega
        rw [if_congr hiff rfl rfl]
        omega

/-- Claim C1: for every valid sequence of `_dbus_transport_ref` /
`_dbus_transport_unref` calls on a transport whose reference count starts at
the 1 set by `_dbus_transport_init_base`, the subclass finalize vtable
operation fires exactly at the unref call at which the number of unref calls
reaches the number of ref calls plus one, and never before: the trace of every
prefix of the sequence contains the finalize dispatch once when the prefix's
unref count equals its ref count plus one, and not at all otherwise. -/
theorem transport_ref_unref_finalize (t : DBusTransport) (ops p q : List TOp)
    (hinit : t.refcount = 1) (hvalid : validFrom 1 ops = true)
    (hsplit : ops = p ++ q) :
    countEvent Event.vFinalize (runTOps t p).2 =
      if unrefCalls p = refCalls p + 1 then 1 else 0 := by
  subst hsplit
  have hp : validFrom 1 p = true := validFrom_append hvalid
  have hmain := countFinalize_runTOps p t (by omega) (by rw [hinit]; exact hp)
  have hiff : (t.refcount + (refCalls p : Int) - (unrefCalls p : Int) = 0) ↔
      (unrefCalls p = refCalls p + 1) := by
    rw [hinit]
    omega
  rw [hmain, if_congr hiff rfl rfl]

/-- Witness for C1: the sequence ref, unref, unref on a fresh transport
triggers finalize (once). -/
theorem transport_ref_unref_finalize_witness :
    countEvent Event.vFinalize
      (runTOps sampleTransport [TOp.ref, TOp.unref, TOp.unref]).2 = 1 :=
  (transport_ref_unref_finalize sampleTransport
      ([TOp.ref, TOp.unref, TOp.unref] ++ []) [TOp.ref, TOp.unref, TOp.unref] []
      rfl (by decide) rfl).trans (by decide)

lemma countEvent_ite (ev : Event) (c : Prop) [Decidable c] (a b : Trace) :
    countEvent ev (if c then a else b) =
      if c then countEvent ev a else countEvent ev b := by
  split <;> rfl

lemma disconnect_of_disconnected {t : DBusTransport} (h : t.disconnected = true) :
    _dbus_transport_disconnect t = (t, []) := by
  simp [_dbus_transport_disconnect, h]

lemma disconnect_result_disconnected (t : DBusTransport) :
    (_dbus_transport_disconnect t).1.disconnected = true := by
  by_cases h : t.disconnected
  · simp [_dbus_transport_disconnect, h]
  · simp [_dbus_transport_disconnect, h, DBUS_TRANSPORT_HOLD_REF,
      DBUS_TRANSPORT_RELEASE_REF, _dbus_transport_ref, _dbus_transport_unref]

lemma countVDisconnect_first {t : DBusTransport} (hd : t.disconnected = false) :
    countEvent Event.vDisconnect (_dbus_transport_disconnect t).2 = 1 := by
  by_cases hc : t.connection <;>
    simp [_dbus_transport_disconnect, hd, hc, DBUS_TRANSPORT_HOLD_REF,
      DBUS_TRANSPORT_RELEASE_REF, _dbus_transport_ref, _dbus_transport_unref,
      countEvent_append, countEvent_ite, countEvent]

lemma iterDisconnect_disconnected (t : DBusTransport) {k : Nat} (hk : 1 ≤ k) :
    (iterDisconnect t k).1.disconnected = true := by
  cases k with
  | zero => omega
  | succ n =>
    show (_dbus_transport_disconnect (iterDisconnect t n).1).1.disconnected = true
    exact disconnect_result_disconnected _

lemma countVDisconnect_iter {t : DBusTransport} (hd : t.disconnected = false) :
    ∀ N : Nat, 1 ≤ N → countEvent Event.vDisconnect (iterDisconnect t N).2 = 1 := by
  intro N hN
  induction N with
  | zero => omega
  | succ n ih =>
    by_cases hn : n = 0
    · subst hn
      show countEvent Event.vDisconnect
        ((iterDisconnect t 0).2 ++ (_dbus_transport_disconnect (iterDisconnect t 0).1).2) = 1
      simp only [iterDisconnect, countEvent_append]
      rw [countVDisconnect_first hd]
      simp [countEvent]
    · have h1 : 1 ≤ n := by omega
      have hnoop := disconnect_of_disconnected (iterDisconnect_disconnected t h1)
      show countEvent Event.vDisconnect
        ((iterDisconnect t n).2 ++ (_dbus_transport_disconnect (iterDisconnect t n).1).2) = 1
      rw [hnoop]
      simp only [countEvent_append, ih h1]
      simp [countEvent]

/-- Claim C2: for every initially connected transport and every N ≥ 1, N
successive `_dbus_transport_disconnect` calls dispatch the subclass disconnect
vtable operation exactly once; after each of the calls
`_dbus_transport_get_is_connected` is false; and every call after the first
returns with no state change and no events. -/
theorem transport_disconnect_idempotent (t : DBusTransport) (N : Nat)
    (hN : 1 ≤ N) (hd : t.disconnected = false) :
    countEvent Event.vDisconnect (iterDisconnect t N).2 = 1 ∧
    (∀ k, 1 ≤ k → k ≤ N →
      _dbus_transport_get_is_connected (iterDisconnect t k).1 = false) ∧
    (∀ k, 1 ≤ k →
      _dbus_transport_disconnect (iterDisconnect t k).1 =
        ((iterDisconnect t k).1, [])) := by
  refine ⟨countVDisconnect_iter hd N hN, ?_, ?_⟩
  · intro k hk _
    simp [_dbus_transport_get_is_connected, iterDisconnect_disconnected t hk]
  · intro k hk
    exact disconnect_of_disconnected (iterDisconnect_disconnected t hk)

/-- Witness for C2 at N = 3 on a concrete connected transport. -/
theorem transport_disconnect_idempotent_witness :
    countEvent Event.vDisconnect (iterDisconnect sampleConnected 3).2 = 1 ∧
    _dbus_transport_get_is_connected (iterDisconnect sampleConnected 2).1 = false :=
  ⟨(transport_disconnect_idempotent sampleConnected 3 (by decide) rfl).1,
   (transport_disconnect_idempotent sampleConnected 3 (by decide) rfl).2.1 2
     (by decide) (by decide)⟩

/-- Claim C6: on the first `_dbus_transport_disconnect` call the side effects
occur in order — guard acquisition, subclass disconnect dispatch, setting the
disconnected flag, guard release: the dispatch event fires while the state
still has `disconnected = false` (the subclass observes pre-disconnect state)
and the release events fire with `disconnected = true`; afterwards the flag is
set. -/
theorem transport_disconnect_effect_order (t : DBusTransport)
    (hd : t.disconnected = false) :
    traceEvents (_dbus_transport_disconnect t) =
      guardAcquire t.connection ++ [Event.vDisconnect] ++
        (guardRelease t.connection ++
          (if t.refcount = 0 then [Event.vFinalize] else [])) ∧
    (∀ s, (Event.vDisconnect, s) ∈ (_dbus_transport_disconnect t).2 →
      s.disconnected = false) ∧
    (∀ s, (Event.unrefTransport, s) ∈ (_dbus_transport_disconnect t).2 →
      s.disconnected = true) ∧
    (∀ s, (Event.unrefConnection, s) ∈ (_dbus_transport_disconnect t).2 →
      s.disconnected = true) ∧
    (_dbus_transport_disconnect t).1.disconnected = true := by
  refine ⟨?_, ?_, ?_, ?_, disconnect_result_disconnected t⟩
  · by_cases hc : t.connection <;> by_cases hz : t.refcount = 0 <;>
      simp [_dbus_transport_disconnect, traceEvents, guardAcquire, guardRelease,
        hd, hc, hz, DBUS_TRANSPORT_HOLD_REF, DBUS_TRANSPORT_RELEASE_REF,
        _dbus_transport_ref, _dbus_transport_unref]
  · intro s hs
    by_cases hc : t.connection <;> by_cases hz : t.refcount = 0 <;>
      [skip; skip; skip; skip] <;>
      simp [_dbus_transport_disconnect, hd, hc, hz, DBUS_TRANSPORT_HOLD_REF,
        DBUS_TRANSPORT_RELEASE_REF, _dbus_transport_ref,
        _dbus_transport_unref] at hs <;>
      simp [hs, hd]
  · intro s hs
    by_cases hc : t.connection <;> by_cases hz : t.refcount = 0 <;>
      [skip; skip; skip; skip] <;>
      simp [_dbus_transport_disconnect, hd, hc, hz, DBUS_TRANSPORT_HOLD_REF,
        DBUS_TRANSPORT_RELEASE_REF, _dbus_transport_ref,
        _dbus_transport_unref] at hs <;>
      simp [hs]
  · intro s hs
    by_cases hc : t.connection <;> by_cases hz : t.refcount = 0 <;>
      [skip; skip; skip; skip] <;>
      simp [_dbus_transport_disconnect, hd, hc, hz, DBUS_TRANSPORT_HOLD_REF,
        DBUS_TRANSPORT_RELEASE_REF, _dbus_transport_ref,
        _dbus_transport_unref] at hs <;>
      simp [hs]

/-- Witness for C6 on a concrete connected transport: the fully evaluated
event order of the first disconnect call. -/
theorem transport_disconnect_effect_order_witness :
    traceEvents (_dbus_transport_disconnect sampleConnected) =
      [Event.refTransport, Event.refConnection, Event.vDisconnect,
       Event.unrefConnection, Event.unrefTransport] :=
  ((transport_disconnect_effect_order sampleConnected rfl).1).trans (by decide)

/-- Claim C3: on a disconnected transport, `_dbus_transport_handle_watch`,
`_dbus_transport_messages_pending`, and `_dbus_transport_do_iteration` (with a
read or write direction requested) each report `DBUS_RESULT_DISCONNECTED` to
the connection via `_dbus_connection_transport_error` and return with the
state unchanged and no subclass vtable dispatch: the trace is exactly the one
error report. -/
theorem transport_disconnected_reports_error (t : DBusTransport)
    (sanitize : Nat → Nat) (watch : DBusWatch) (condition : Nat) (q : Int)
    (flags : Nat) (timeout_milliseconds : Int) (hd : t.disconnected = true)
    (hflags : flags &&& (DBUS_ITERATION_DO_WRITING |||
      DBUS_ITERATION_DO_READING) ≠ 0) :
    _dbus_transport_handle_watch sanitize t watch condition =
      (t, [(Event.connectionError DBusResultCode.disconnected, t)]) ∧
    _dbus_transport_messages_pending t q =
      (t, [(Event.connectionError DBusResultCode.disconnected, t)]) ∧
    _dbus_transport_do_iteration t flags timeout_milliseconds =
      (t, [(Event.connectionError DBusResultCode.disconnected, t)]) := by
  refine ⟨?_, ?_, ?_⟩
  · simp [_dbus_transport_handle_watch, hd]
  · simp [_dbus_transport_messages_pending, hd]
  · simp [_dbus_transport_do_iteration, hd, hflags]

/-- Witness for C3 on a concrete disconnected transport, with the read
direction requested for the iteration. -/
theorem transport_disconnected_reports_error_witness :
    _dbus_transport_handle_watch id sampleDisconnected ⟨0⟩ 0 =
      (sampleDisconnected,
       [(Event.connectionError DBusResultCode.disconnected,
         sampleDisconnected)]) ∧
    _dbus_transport_messages_pending sampleDisconnected 5 =
      (sampleDisconnected,
       [(Event.connectionError DBusResultCode.disconnected,
         sampleDisconnected)]) ∧
    _dbus_transport_do_iteration sampleDisconnected 1 (-1) =
      (sampleDisconnected,
       [(Event.connectionError DBusResultCode.disconnected,
         sampleDisconnected)]) :=
  transport_disconnected_reports_error sampleDisconnected id ⟨0⟩ 0 5 1 (-1)
    rfl (by decide)

/-- Claim C10: on an already disconnected transport,
`_dbus_transport_messages_pending` leaves every transport field — in
particular `messages_need_sending` — unchanged: it returns the input state
with only the error report to the connection in the trace. -/
theorem messages_pending_disconnected_state_unchanged (t : DBusTransport)
    (queue_length : Int) (hd : t.disconnected = true) :
    _dbus_transport_messages_pending t queue_length =
      (t, [(Event.connectionError DBusResultCode.disconnected, t)]) := by
  simp [_dbus_transport_messages_pending, hd]

/-- Witness for C10 on a concrete disconnected transport whose flag would flip
if the non-disconnected path ran. -/
theorem messages_pending_disconnected_state_unchanged_witness :
    _dbus_transport_messages_pending sampleDisconnected 7 =
      (sampleDisconnected,
       [(Event.connectionError DBusResultCode.disconnected,
         sampleDisconnected)]) :=
  messages_pending_disconnected_state_unchanged sampleDisconnected 7 rfl

/-- Claim C7: on a non-disconnected transport,
`_dbus_transport_messages_pending` sets `messages_need_sending` to
`queue_length > 0` before dispatching the subclass messages_pending vtable
operation: the dispatch event occurs, every state observed at that dispatch
already carries the flag value of the current call, and the final state keeps
it. -/
theorem messages_pending_flag_set_before_dispatch (t : DBusTransport)
    (queue_length : Int) (hd : t.disconnected = false) :
    (∃ s, (Event.vMessagesPending queue_length, s) ∈
      (_dbus_transport_messages_pending t queue_length).2) ∧
    (∀ s, (Event.vMessagesPending queue_length, s) ∈
        (_dbus_transport_messages_pending t queue_length).2 →
      s.messages_need_sending = decide (queue_length > 0)) ∧
    (_dbus_transport_messages_pending t queue_length).1.messages_need_sending =
      decide (queue_length > 0) := by
  refine ⟨?_, ?_, ?_⟩
  · by_cases hc : t.connection <;>
      simp [_dbus_transport_messages_pending, hd, hc, DBUS_TRANSPORT_HOLD_REF,
        DBUS_TRANSPORT_RELEASE_REF, _dbus_transport_ref, _dbus_transport_unref]
  · intro s hs
    by_cases hc : t.connection <;> by_cases hz : t.refcount = 0 <;>
      [skip; skip; skip; skip] <;>
      simp [_dbus_transport_messages_pending, hd, hc, hz,
        DBUS_TRANSPORT_HOLD_REF, DBUS_TRANSPORT_RELEASE_REF,
        _dbus_transport_ref, _dbus_transport_unref] at hs <;>
      simp [hs]
  · by_cases hc : t.connection <;>
      simp [_dbus_transport_messages_pending, hd, hc, DBUS_TRANSPORT_HOLD_REF,
        DBUS_TRANSPORT_RELEASE_REF, _dbus_transport_ref, _dbus_transport_unref]

/-- Witness for C7: after `messages_pending(5)` the flag is observed true, and
after a subsequent `messages_pending(0)` it is observed false. -/
theorem messages_pending_flag_set_before_dispatch_witness :
    (_dbus_transport_messages_pending sampleConnected 5).1.messages_need_sending =
      decide ((5:Int) > 0) ∧
    (_dbus_transport_messages_pending
        (_dbus_transport_messages_pending sampleConnected 5).1
        0).1.messages_need_sending = decide ((0:Int) > 0) :=
  ⟨(messages_pending_flag_set_before_dispatch sampleConnected 5 rfl).2.2,
   (messages_pending_flag_set_before_dispatch
      (_dbus_transport_messages_pending sampleConnected 5).1 0 (by decide)).2.2⟩

/-- Claim C9: `_dbus_transport_do_iteration` with neither direction flag is a
pure no-op — unchanged state, no events, even on a disconnected transport;
with a direction requested it reports the disconnected error when
disconnected, and otherwise dispatches the subclass do_iteration operation
under the reentrancy guard. -/
theorem do_iteration_direction_gate (t : DBusTransport) (flags : Nat)
    (timeout_milliseconds : Int) :
    (flags &&& (DBUS_ITERATION_DO_WRITING ||| DBUS_ITERATION_DO_READING) = 0 →
      _dbus_transport_do_iteration t flags timeout_milliseconds = (t, [])) ∧
    (flags &&& (DBUS_ITERATION_DO_WRITING ||| DBUS_ITERATION_DO_READING) ≠ 0 →
      (t.disconnected = true →
        _dbus_transport_do_iteration t flags timeout_milliseconds =
          (t, [(Event.connectionError DBusResultCode.disconnected, t)])) ∧
      (t.disconnected = false →
        traceEvents (_dbus_transport_do_iteration t flags timeout_milliseconds) =
          guardAcquire t.connection ++
            [Event.vDoIteration flags timeout_milliseconds] ++
            (guardRelease t.connection ++
              (if t.refcount = 0 then [Event.vFinalize] else [])))) := by
  refine ⟨?_, ?_⟩
  · intro h0
    simp [_dbus_transport_do_iteration, h0]
  · intro h0
    refine ⟨?_, ?_⟩
    · intro hd
      simp [_dbus_transport_do_iteration, h0, hd]
    · intro hd
      by_cases hc : t.connection <;> by_cases hz : t.refcount = 0 <;>
        simp [_dbus_transport_do_iteration, traceEvents, guardAcquire,
          guardRelease, h0, hd, hc, hz, DBUS_TRANSPORT_HOLD_REF,
          DBUS_TRANSPORT_RELEASE_REF, _dbus_transport_ref,
          _dbus_transport_unref]

/-- Witness for C9: a block-only flag word (bit 4, no direction bit) is a
no-op even on a disconnected transport; a read-and-write request on a
connected transport dispatches under the guard. -/
theorem do_iteration_direction_gate_witness :
    _dbus_transport_do_iteration sampleDisconnected 4 (-1) =
      (sampleDisconnected, []) ∧
    traceEvents (_dbus_transport_do_iteration sampleConnected 3 100) =
      [Event.refTransport, Event.refConnection, Event.vDoIteration 3 100,
       Event.unrefConnection, Event.unrefTransport] :=
  ⟨(do_iteration_direction_gate sampleDisconnected 4 (-1)).1 (by decide),
   (((do_iteration_direction_gate sampleConnected 3 100).2 (by decide)).2
      rfl).trans (by decide)⟩

/-- Claim C5: `_dbus_transport_get_is_authenticated` is monotonic — when the
cached flag is already true it returns true without consulting the auth
conversation (state, including the consult counter, unchanged); once a call
returns true every later call returns true, under any oracle, again without
consulting; while the flag is false each call consults the conversation once
and caches true exactly when the reported phase is the authenticated one; and
`_dbus_transport_disconnect` never changes the cached flag. -/
theorem get_is_authenticated_monotonic (t : DBusTransport)
    (work work2 : Nat → DBusAuthState) :
    (t.authenticated = true →
      _dbus_transport_get_is_authenticated work t = (true, t)) ∧
    ((_dbus_transport_get_is_authenticated work t).1 = true →
      _dbus_transport_get_is_authenticated work2
          (_dbus_transport_get_is_authenticated work t).2 =
        (true, (_dbus_transport_get_is_authenticated work t).2)) ∧
    (t.authenticated = false →
      (_dbus_transport_get_is_authenticated work t).1 =
        decide (work t.authCalls = DBusAuthState.authenticated) ∧
      (_dbus_transport_get_is_authenticated work t).2.authCalls =
        t.authCalls + 1 ∧
      (_dbus_transport_get_is_authenticated work t).2.authenticated =
        (_dbus_transport_get_is_authenticated work t).1) ∧
    (_dbus_transport_disconnect t).1.authenticated = t.authenticated := by
  refine ⟨?_, ?_, ?_, ?_⟩
  · intro h
    simp [_dbus_transport_get_is_authenticated, h]
  · intro h
    by_cases ha : t.authenticated
    · simp [_dbus_transport_get_is_authenticated, ha]
    · simp [_dbus_transport_get_is_authenticated, ha] at h ⊢
      simp [h]
  · intro ha
    simp [_dbus_transport_get_is_authenticated, ha]
  · by_cases hd : t.disconnected <;>
      simp [_dbus_transport_disconnect, hd, DBUS_TRANSPORT_HOLD_REF,
        DBUS_TRANSPORT_RELEASE_REF, _dbus_transport_ref, _dbus_transport_unref]

/-- Witness for C5: an oracle whose first advance reports the authenticated
phase makes the first call return true; the next call, under an oracle that
never authenticates, still returns true with the state unchanged. -/
theorem get_is_authenticated_monotonic_witness :
    _dbus_transport_get_is_authenticated (fun _ => DBusAuthState.waitingForInput)
        (_dbus_transport_get_is_authenticated
          (fun _ => DBusAuthState.authenticated) sampleTransport).2 =
      (true,
       (_dbus_transport_get_is_authenticated
         (fun _ => DBusAuthState.authenticated) sampleTransport).2) :=
  (get_is_authenticated_monotonic sampleTransport
      (fun _ => DBusAuthState.authenticated)
      (fun _ => DBusAuthState.waitingForInput)).2.1 (by decide)

/-- Claim C8: `_dbus_transport_init_base` returns failure with the transport
untouched and nothing allocated when the loader allocation fails; returns
failure with the transport untouched after releasing the already-allocated
loader when the auth allocation fails; and on success leaves refcount 1, the
given vtable, a fresh loader, a fresh auth conversation of the role-chosen
variant, and the three flags false. -/
theorem init_base_alloc_contract (t : DBusTransport) (vtable : Nat)
    (server loader_ok auth_ok : Bool) :
    (loader_ok = false →
      _dbus_transport_init_base t vtable server loader_ok auth_ok =
        (false, t, [])) ∧
    (loader_ok = true → auth_ok = false →
      _dbus_transport_init_base t vtable server loader_ok auth_ok =
        (false, t, [InitEvent.allocLoader, InitEvent.freeLoader])) ∧
    (loader_ok = true → auth_ok = true →
      _dbus_transport_init_base t vtable server loader_ok auth_ok =
        (true,
         { t with refcount := 1, vtable := vtable, loader := true,
                  auth := some (if server then AuthVariant.server
                                else AuthVariant.client),
                  authCalls := 0, authenticated := false,
                  messages_need_sending := false, disconnected := false },
         [InitEvent.allocLoader,
          InitEvent.allocAuth (if server then AuthVariant.server
                               else AuthVariant.client)])) := by
  refine ⟨?_, ?_, ?_⟩
  · intro h
    simp [_dbus_transport_init_base, h]
  · intro h1 h2
    simp [_dbus_transport_init_base, h1, h2]
  · intro h1 h2
    simp [_dbus_transport_init_base, h1, h2]

/-- Witness for C8: all three construction outcomes at concrete inputs, with
the server-role variant chosen on success. -/
theorem init_base_alloc_contract_witness :
    _dbus_transport_init_base sampleDisconnected 7 true false true =
      (false, sampleDisconnected, []) ∧
    _dbus_transport_init_base sampleDisconnected 7 true true false =
      (false, sampleDisconnected,
       [InitEvent.allocLoader, InitEvent.freeLoader]) ∧
    _dbus_transport_init_base sampleDisconnected 7 true true true =
      (true,
       { refcount := 1, vtable := 7, connection := true, loader := true,
         auth := some AuthVariant.server, authCalls := 0,
         disconnected := false, authenticated := false,
         messages_need_sending := false },
       [InitEvent.allocLoader, InitEvent.allocAuth AuthVariant.server]) :=
  ⟨(init_base_alloc_contract sampleDisconnected 7 true false true).1 rfl,
   (init_base_alloc_contract sampleDisconnected 7 true true false).2.1 rfl rfl,
   ((init_base_alloc_contract sampleDisconnected 7 true true true).2.2 rfl
     rfl).trans (by decide)⟩

/-- Claim C4: each public operation that dispatches through the vtable —
disconnect, handle_watch, set_connection, messages_pending, do_iteration —
acquires an extra transport reference and, when a connection is attached, an
extra connection reference before the dispatch, and releases both after the
dispatch in the reverse order of acquisition; the release fires on the (only)
exit path of every dispatching run, as the trace equalities show. -/
theorem vtable_dispatch_guarded (t : DBusTransport) (sanitize : Nat → Nat)
    (watch : DBusWatch) (condition : Nat) (queue_length : Int) (flags : Nat)
    (timeout_milliseconds : Int) (hr : 0 < t.refcount) :
    (t.disconnected = false →
      traceEvents (_dbus_transport_disconnect t) =
        guardAcquire t.connection ++ [Event.vDisconnect] ++
          guardRelease t.connection) ∧
    (t.disconnected = false → 0 ≤ watch.fd →
      traceEvents (_dbus_transport_handle_watch sanitize t watch condition) =
        guardAcquire t.connection ++
          [Event.refWatch, Event.vHandleWatch watch.fd (sanitize condition),
           Event.unrefWatch] ++ guardRelease t.connection) ∧
    (t.connection = false →
      traceEvents (_dbus_transport_set_connection t) =
        guardAcquire true ++ [Event.vConnectionSet] ++ guardRelease true) ∧
    (t.disconnected = false →
      traceEvents (_dbus_transport_messages_pending t queue_length) =
        guardAcquire t.connection ++ [Event.vMessagesPending queue_length] ++
          guardRelease t.connection) ∧
    (flags &&& (DBUS_ITERATION_DO_WRITING |||
        DBUS_ITERATION_DO_READING) ≠ 0 → t.disconnected = false →
      traceEvents (_dbus_transport_do_iteration t flags timeout_milliseconds) =
        guardAcquire t.connection ++
          [Event.vDoIteration flags timeout_milliseconds] ++
          guardRelease t.connection) := by
  have hnz : ¬(t.refcount = 0) := by omega
  refine ⟨?_, ?_, ?_, ?_, ?_⟩
  · intro hd
    by_cases hc : t.connection <;>
      simp [_dbus_transport_disconnect, traceEvents, guardAcquire, guardRelease,
        hd, hc, hnz, DBUS_TRANSPORT_HOLD_REF, DBUS_TRANSPORT_RELEASE_REF,
        _dbus_transport_ref, _dbus_transport_unref]
  · intro hd hfd
    have hfd2 : ¬(watch.fd < 0) := by omega
    by_cases hc : t.connection <;>
      simp [_dbus_transport_handle_watch, traceEvents, guardAcquire,
        guardRelease, hd, hfd2, hc, hnz, DBUS_TRANSPORT_HOLD_REF,
        DBUS_TRANSPORT_RELEASE_REF, _dbus_transport_ref, _dbus_transport_unref]
  · intro hc
    simp [_dbus_transport_set_connection, traceEvents, guardAcquire,
      guardRelease, hnz, DBUS_TRANSPORT_HOLD_REF, DBUS_TRANSPORT_RELEASE_REF,
      _dbus_transport_ref, _dbus_transport_unref]
  · intro hd
    by_cases hc : t.connection <;>
      simp [_dbus_transport_messages_pending, traceEvents, guardAcquire,
        guardRelease, hd, hc, hnz, DBUS_TRANSPORT_HOLD_REF,
        DBUS_TRANSPORT_RELEASE_REF, _dbus_transport_ref, _dbus_transport_unref]
  · intro h0 hd
    by_cases hc : t.connection <;>
      simp [_dbus_transport_do_iteration, traceEvents, guardAcquire,
        guardRelease, h0, hd, hc, hnz, DBUS_TRANSPORT_HOLD_REF,
        DBUS_TRANSPORT_RELEASE_REF, _dbus_transport_ref, _dbus_transport_unref]

/-- Witness for C4: the five dispatching operations on a concrete fresh
transport, with the fully evaluated guarded traces. -/
theorem vtable_dispatch_guarded_witness :
    traceEvents (_dbus_transport_disconnect sampleTransport) =
      [Event.refTransport, Event.vDisconnect, Event.unrefTransport] ∧
    traceEvents (_dbus_transport_handle_watch id sampleTransport ⟨0⟩ 0) =
      [Event.refTransport, Event.refWatch, Event.vHandleWatch 0 0,
       Event.unrefWatch, Event.unrefTransport] ∧
    traceEvents (_dbus_transport_set_connection sampleTransport) =
      [Event.refTransport, Event.refConnection, Event.vConnectionSet,
       Event.unrefConnection, Event.unrefTransport] ∧
    traceEvents (_dbus_transport_messages_pending sampleTransport 5) =
      [Event.refTransport, Event.vMessagesPending 5, Event.unrefTransport] ∧
    traceEvents (_dbus_transport_do_iteration sampleTransport 1 (-1)) =
      [Event.refTransport, Event.vDoIteration 1 (-1),
       Event.unrefTransport] := by
  have h := vtable_dispatch_guarded sampleTransport id ⟨0⟩ 0 5 1 (-1) (by decide)
  exact ⟨(h.1 rfl).trans (by decide),
         (h.2.1 rfl (by decide)).trans (by decide),
         (h.2.2.1 rfl).trans (by decide),
         (h.2.2.2.1 rfl).trans (by decide),
         (h.2.2.2.2 (by decide) rfl).trans (by decide)⟩
